import Mathlib

/-!
Verification of the pygame-crt CRT post-processing screen against its
natural-language specification.

The development shallow-embeds `pygame_crt.py`:

* Host side (`CRTScreen.__init__`, `configure`, `render`): Python floats are
  modelled as exact rationals, Python ints as `ℤ`.  A uniform slot of the
  pipeline holds a `PyVal` (the value whose bytes `struct.pack` produced).
  Python's `struct.pack` distinguishes integer and float arguments:
  `struct.pack("i", x)` raises `struct.error` when `x` is a float, and
  `struct.pack("f", x)` accepts both.  Exceptions that leave earlier in-place
  mutations behind are modelled by returning the state *at the raise* next to
  an `Option String` holding the exception.
* Shader side (the GLSL vertex and fragment programs): embedded as pure
  functions over `ℚ`.  The texture sampler and the `sin` intrinsic are
  parameters of the embedding (`tex`, `sinFn`), since their values come from
  outside the shader text.
-/

namespace PygameCRT

/-- A Python value that can be handed to `struct.pack`: an `int` or a `float`
(floats modelled exactly as rationals). -/
inductive PyVal where
  | int : ℤ → PyVal
  | float : ℚ → PyVal
deriving DecidableEq, Repr

/-- `struct.pack("i", v)`: accepts only integers in the 4-byte signed range;
a float argument raises `struct.error` ("required argument is not an
integer"). -/
def struct_pack_i : PyVal → Except String PyVal
  | .int n =>
      if -2147483648 ≤ n ∧ n < 2147483648 then .ok (.int n)
      else .error "struct.error: argument out of range"
  | .float _ => .error "struct.error: required argument is not an integer"

/-- `struct.pack("f", v)`: packs a 4-byte float; accepts ints and floats
(rounding to float32 is not modelled — rationals stay exact). -/
def struct_pack_f : PyVal → PyVal
  | .int n => .float (n : ℚ)
  | .float q => .float q

/-- The pipeline's uniform slots, as created in `CRTScreen.__init__`
(`uniforms={...}` of the `ctx.pipeline(...)` call). -/
structure Uniforms where
  time : PyVal
  scale : PyVal × PyVal
  offset : PyVal × PyVal
  screen_size : PyVal × PyVal
  color_shift : PyVal
  color_mode : PyVal
  enable_noise : PyVal
  enable_scanline : PyVal
  enable_multisample : PyVal
  enable_screen : PyVal
deriving DecidableEq, Repr

/-- The mutable state of a `CRTScreen` object: the logical screen size and
derived aspect, plus the pipeline's uniform block and viewport. -/
structure CRTState where
  screen_size : ℤ × ℤ
  screen_aspect : ℚ
  uniforms : Uniforms
  viewport : ℤ × ℤ × ℤ × ℤ
deriving DecidableEq, Repr

/-- The initial uniform values passed to `ctx.pipeline` in `__init__`:
`time=0.0, scale=(1,1), offset=(0,0), screen_size=screen_size,
color_shift=0.001, color_mode=1, enable_*=1`. -/
def initUniforms (sz : ℤ × ℤ) : Uniforms where
  time := .float 0
  scale := (.float 1, .float 1)
  offset := (.float 0, .float 0)
  screen_size := (.float (sz.1 : ℚ), .float (sz.2 : ℚ))
  color_shift := .float (1 / 1000)
  color_mode := .int 1
  enable_noise := .int 1
  enable_scanline := .int 1
  enable_multisample := .int 1
  enable_screen := .int 1

/-- Python true division `a / b`: raises `ZeroDivisionError` when `b == 0`. -/
def pyDiv (a b : ℚ) : Except String ℚ :=
  if b = 0 then .error "ZeroDivisionError: division by zero" else .ok (a / b)

/-- `CRTScreen.__init__(screen_size)`: stores the size, derives
`screen_aspect = screen_size[0] / screen_size[1]`, and creates the pipeline
with its initial uniforms and viewport `(0, 0, 0, 0)`. -/
def CRTScreen_init (screen_size : ℤ × ℤ) : Except String CRTState :=
  match pyDiv (screen_size.1 : ℚ) (screen_size.2 : ℚ) with
  | .error e => .error e
  | .ok aspect =>
      .ok { screen_size := screen_size
            screen_aspect := aspect
            uniforms := initUniforms screen_size
            viewport := (0, 0, 0, 0) }

/-- The keyword arguments of `CRTScreen.configure`; every field defaults to
`None`. -/
structure ConfigureArgs where
  color_shift : Option ℚ := none
  color_mode : Option String := none
  enable_noise : Option Bool := none
  enable_scanline : Option Bool := none
  enable_multisample : Option Bool := none
  enable_screen : Option Bool := none
deriving DecidableEq, Repr

/-- `list.index(x)` on a Python list of strings: the first index of `x`, or a
`ValueError` when `x` does not occur. -/
def py_list_index : List String → String → Except String ℤ
  | [], _ => .error "ValueError: not in list"
  | a :: rest, x =>
      if a = x then .ok 0 else (py_list_index rest x).map (fun n => n + 1)

/-- Sequencing of configure branches: a raised exception aborts the call,
keeping the state reached so far. -/
def andThen (r : CRTState × Option String)
    (f : CRTState → CRTState × Option String) : CRTState × Option String :=
  match r with
  | (s, none) => f s
  | (s, some e) => (s, some e)

/-- The `color_shift` branch of `configure`: clamp with
`min(max(float(color_shift), -0.01), 0.01)` and write
`struct.pack("i", color_shift)` into the uniform slot.  The clamped value is
a Python float, so the integer pack raises before the slot is assigned. -/
def cfg_color_shift (a : Option ℚ) (s : CRTState) : CRTState × Option String :=
  match a with
  | none => (s, none)
  | some x =>
      let cs := min (max x (-(1 / 100) : ℚ)) (1 / 100)
      match struct_pack_i (.float cs) with
      | .error e => (s, some e)
      | .ok v => ({ s with uniforms := { s.uniforms with color_shift := v } }, none)

/-- The `color_mode` branch of `configure`:
`["none", "bright", "aces"].index(color_mode)` then
`struct.pack("i", ...)` into the uniform slot. -/
def cfg_color_mode (a : Option String) (s : CRTState) : CRTState × Option String :=
  match a with
  | none => (s, none)
  | some m =>
      match py_list_index ["none", "bright", "aces"] m with
      | .error e => (s, some e)
      | .ok idx =>
          match struct_pack_i (.int idx) with
          | .error e => (s, some e)
          | .ok v => ({ s with uniforms := { s.uniforms with color_mode := v } }, none)

/-- The `enable_noise` branch of `configure`: `int(bool(...))` then an
integer pack into the uniform slot. -/
def cfg_enable_noise (a : Option Bool) (s : CRTState) : CRTState × Option String :=
  match a with
  | none => (s, none)
  | some b =>
      match struct_pack_i (.int (if b then 1 else 0)) with
      | .error e => (s, some e)
      | .ok v => ({ s with uniforms := { s.uniforms with enable_noise := v } }, none)

/-- The `enable_scanline` branch of `configure`. -/
def cfg_enable_scanline (a : Option Bool) (s : CRTState) : CRTState × Option String :=
  match a with
  | none => (s, none)
  | some b =>
      match struct_pack_i (.int (if b then 1 else 0)) with
      | .error e => (s, some e)
      | .ok v => ({ s with uniforms := { s.uniforms with enable_scanline := v } }, none)

/-- The `enable_multisample` branch of `configure`. -/
def cfg_enable_multisample (a : Option Bool) (s : CRTState) : CRTState × Option String :=
  match a with
  | none => (s, none)
  | some b =>
      match struct_pack_i (.int (if b then 1 else 0)) with
      | .error e => (s, some e)
      | .ok v => ({ s with uniforms := { s.uniforms with enable_multisample := v } }, none)

/-- The `enable_screen` branch of `configure`. -/
def cfg_enable_screen (a : Option Bool) (s : CRTState) : CRTState × Option String :=
  match a with
  | none => (s, none)
  | some b =>
      match struct_pack_i (.int (if b then 1 else 0)) with
      | .error e => (s, some e)
      | .ok v => ({ s with uniforms := { s.uniforms with enable_screen := v } }, none)

/-- `CRTScreen.configure`: processes the provided fields in source order
(`color_shift`, `color_mode`, `enable_noise`, `enable_scanline`,
`enable_multisample`, `enable_screen`); a raised exception aborts the call
with the state reached at that point. -/
def configure (s : CRTState) (a : ConfigureArgs) : CRTState × Option String :=
  andThen (andThen (andThen (andThen (andThen
    (cfg_color_shift a.color_shift s)
    (cfg_color_mode a.color_mode))
    (cfg_enable_noise a.enable_noise))
    (cfg_enable_scanline a.enable_scanline))
    (cfg_enable_multisample a.enable_multisample))
    (cfg_enable_screen a.enable_screen)

/-- `CRTScreen.render(screen, offset=None, tick=None)`.

External collaborators are passed as arguments: `window_size` is what
`pygame.display.get_window_size()` returns and `get_ticks` is
`pygame.time.get_ticks()`.  The pixel upload `self.image.write(...)` touches
only the GPU image, not the state modelled here.  All divisions happen before
any state mutation, so a raise leaves the state unchanged and is modelled by
`Except`. -/
def render (s : CRTState) (offArg : Option (ℚ × ℚ)) (tickArg : Option ℚ)
    (window_size : ℤ × ℤ) (get_ticks : ℚ) : Except String CRTState :=
  let off := offArg.getD (0, 0)
  let tick := tickArg.getD get_ticks
  match pyDiv (window_size.1 : ℚ) (window_size.2 : ℚ) with
  | .error e => .error e
  | .ok window_aspect =>
  match pyDiv off.1 (s.screen_size.1 : ℚ) with
  | .error e => .error e
  | .ok offset_x =>
  match pyDiv off.2 (s.screen_size.2 : ℚ) with
  | .error e => .error e
  | .ok offset_y =>
  match
    (if s.screen_aspect < window_aspect then
      match pyDiv window_aspect s.screen_aspect with
      | .error e => .error e
      | .ok sx => .ok (sx, (1 : ℚ))
    else
      match pyDiv s.screen_aspect window_aspect with
      | .error e => .error e
      | .ok sy => .ok ((1 : ℚ), sy) : Except String (ℚ × ℚ))
  with
  | .error e => .error e
  | .ok scales =>
      .ok { s with
        viewport := (0, 0, window_size.1, window_size.2)
        uniforms := { s.uniforms with
          time := struct_pack_f (.float tick)
          scale := (struct_pack_f (.float scales.1), struct_pack_f (.float scales.2))
          offset := (struct_pack_f (.float offset_x), struct_pack_f (.float offset_y)) } }

/-! ## The shader programs -/

/-- A GLSL `vec3` holding a color. -/
structure Vec3 where
  r : ℚ
  g : ℚ
  b : ℚ
deriving DecidableEq, Repr

/-- A GLSL `vec4` holding a color with alpha. -/
structure Vec4 where
  r : ℚ
  g : ℚ
  b : ℚ
  a : ℚ
deriving DecidableEq, Repr

/-- The `.rgb` swizzle of a `vec4`. -/
def Vec4.rgb (v : Vec4) : Vec3 := ⟨v.r, v.g, v.b⟩

/-- GLSL `fract`: `x - floor(x)`. -/
def fract (q : ℚ) : ℚ := q - ⌊q⌋

/-- GLSL `floor` as a rational-valued function. -/
def flq (q : ℚ) : ℚ := (⌊q⌋ : ℚ)

/-- The shader's `hash13`: `p3 = fract(p3 * .1031); p3 += dot(p3, p3.zyx + 31.32);
return fract((p3.x + p3.y) * p3.z);`. -/
def hash13 (p : ℚ × ℚ × ℚ) : ℚ :=
  let q1 := fract (p.1 * (1031 / 10000))
  let q2 := fract (p.2.1 * (1031 / 10000))
  let q3 := fract (p.2.2 * (1031 / 10000))
  let d := q1 * (q3 + 783 / 25) + q2 * (q2 + 783 / 25) + q3 * (q1 + 783 / 25)
  fract (((q1 + d) + (q2 + d)) * (q3 + d))

/-- The shader's `hash23`:
`p3 = fract(p3 * vec3(.1031, .1030, .0973)); p3 += dot(p3, p3.yzx + 33.33);
return fract((p3.xx + p3.yz) * p3.zy);`. -/
def hash23 (p : ℚ × ℚ × ℚ) : ℚ × ℚ :=
  let q1 := fract (p.1 * (1031 / 10000))
  let q2 := fract (p.2.1 * (103 / 1000))
  let q3 := fract (p.2.2 * (973 / 10000))
  let d := q1 * (q2 + 3333 / 100) + q2 * (q3 + 3333 / 100) + q3 * (q1 + 3333 / 100)
  (fract (((q1 + d) + (q2 + d)) * (q3 + d)),
   fract (((q1 + d) + (q3 + d)) * (q2 + d)))

/-- The ACES curve of the shader, one component:
`clamp((x * (a * x + b)) / (x * (c * x + d) + e), 0.0, 1.0)` with
`a=2.51, b=0.03, c=2.43, d=0.59, e=0.14`. -/
def acesCurve (x : ℚ) : ℚ :=
  min (max ((x * (251 / 100 * x + 3 / 100)) / (x * (243 / 100 * x + 59 / 100) + 14 / 100)) 0) 1

/-- The shader's `aces` tone-map, componentwise. -/
def aces (c : Vec3) : Vec3 := ⟨acesCurve c.r, acesCurve c.g, acesCurve c.b⟩

/-- The fragment shader's uniform inputs. -/
structure FragUniforms where
  color_shift : ℚ
  color_mode : ℤ
  enable_noise : ℤ
  enable_scanline : ℤ
  enable_multisample : ℤ
  enable_screen : ℤ
  time : ℚ
  screen_size : ℚ × ℚ
deriving DecidableEq, Repr

/-- The shader's `sample_screen(uv)`: plain texture fetch when
`color_shift == 0`, otherwise per-channel fetches at `uv - color_shift`, `uv`
and `uv + color_shift` (GLSL broadcasts the scalar over both components).
`tex` is the bound `sampler2D`. -/
def sample_screen (U : FragUniforms) (tex : ℚ × ℚ → Vec4) (uv : ℚ × ℚ) : Vec3 :=
  if U.color_shift = 0 then (tex uv).rgb
  else
    ⟨(tex (uv.1 - U.color_shift, uv.2 - U.color_shift)).r,
     (tex uv).g,
     (tex (uv.1 + U.color_shift, uv.2 + U.color_shift)).b⟩

/-- The shader's `screen(vertex)` function: black outside `[-1.001, 1.001]`
on either axis, otherwise Y-flipped UV mapping followed by the optional
noise, scanline and tone-mapping stages.  `sinFn` is GLSL's `sin`. -/
def screen (U : FragUniforms) (tex : ℚ × ℚ → Vec4) (sinFn : ℚ → ℚ)
    (vertex : ℚ × ℚ) : Vec3 :=
  if 1001 / 1000 < |vertex.1| ∨ 1001 / 1000 < |vertex.2| then ⟨0, 0, 0⟩ else
  let uv : ℚ × ℚ := (vertex.1 * (1 / 2) + 1 / 2, 1 - (vertex.2 * (1 / 2) + 1 / 2))
  let color := sample_screen U tex uv
  let color :=
    if U.enable_noise = 1 then
      let noise := hash13 (flq (uv.1 * U.screen_size.1), flq (uv.2 * U.screen_size.2),
        flq (flq U.time))
      ⟨color.r * (1 + (noise - 1 / 2) * (1 / 10)),
       color.g * (1 + (noise - 1 / 2) * (1 / 10)),
       color.b * (1 + (noise - 1 / 2) * (1 / 10))⟩
    else color
  let color :=
    if U.enable_scanline = 1 then
      let scan := sinFn (uv.2 * U.screen_size.2 * (3141592 / 1000000) + U.time * (5 / 100))
        * (1 / 10) + 9 / 10
      ⟨color.r * scan, color.g * scan, color.b * scan⟩
    else color
  let color :=
    if U.color_mode = 1 then
      ⟨color.r * (105 / 100) + 5 / 100, color.g * (105 / 100) + 5 / 100,
       color.b * (105 / 100) + 5 / 100⟩
    else color
  let color := if U.color_mode = 2 then aces color else color
  color

/-- The barrel warp of the fragment `main`:
`v = vertex * (1.0 + pow(abs(vertex.yx), vec2(2.0)) * 0.1)`. -/
def warp (p : ℚ × ℚ) : ℚ × ℚ :=
  (p.1 * (1 + |p.2| ^ 2 * (1 / 10)), p.2 * (1 + |p.1| ^ 2 * (1 / 10)))

/-- The multisample accumulation loop of the fragment `main`: after `n`
iterations the color accumulated from sample indices `0 .. n-1`, each taken
at `v * 1.01 + (hash23(vec3(v * screen_size, i)) - 0.5) / screen_size`. -/
def msAccum (U : FragUniforms) (tex : ℚ × ℚ → Vec4) (sinFn : ℚ → ℚ)
    (v : ℚ × ℚ) : ℕ → Vec3
  | 0 => ⟨0, 0, 0⟩
  | n + 1 =>
      let c := msAccum U tex sinFn v n
      let o := hash23 (v.1 * U.screen_size.1, v.2 * U.screen_size.2, (n : ℚ))
      let sc := screen U tex sinFn
        (v.1 * (101 / 100) + (o.1 - 1 / 2) / U.screen_size.1,
         v.2 * (101 / 100) + (o.2 - 1 / 2) / U.screen_size.2)
      ⟨c.r + sc.r, c.g + sc.g, c.b + sc.b⟩

/-- The fragment shader's `main`, as a function of the interpolated `vertex`
coordinate: passthrough branch when `enable_screen == 0`, otherwise warp plus
16-sample multisampling (or a single sample at `v * 1.01`). -/
def fragMain (U : FragUniforms) (tex : ℚ × ℚ → Vec4) (sinFn : ℚ → ℚ)
    (vertex : ℚ × ℚ) : Vec4 :=
  if U.enable_screen = 0 then
    if |vertex.1| ≤ 1 ∨ |vertex.2| ≤ 1 then
      let uv : ℚ × ℚ := (vertex.1 * (1 / 2) + 1 / 2, 1 - (vertex.2 * (1 / 2) + 1 / 2))
      tex uv
    else ⟨0, 0, 0, 1⟩
  else
    let v := warp vertex
    if U.enable_multisample = 1 then
      let color := msAccum U tex sinFn v 16
      ⟨color.r / 16, color.g / 16, color.b / 16, 1⟩
    else
      let color := screen U tex sinFn (v.1 * (101 / 100), v.2 * (101 / 100))
      ⟨color.r, color.g, color.b, 1⟩

/-- The jittered sample position of multisample index `i` as the spec states
it: `v * 1.01 + (hash23(v * screenSize, i) - 0.5) / screenSize`.  This
definition is *not* used by `fragMain`; the multisampling theorem connects
`fragMain`'s accumulation loop to it. -/
def samplePoint (U : FragUniforms) (v : ℚ × ℚ) (i : ℕ) : ℚ × ℚ :=
  (v.1 * (101 / 100)
      + ((hash23 (v.1 * U.screen_size.1, v.2 * U.screen_size.2, (i : ℚ))).1 - 1 / 2)
        / U.screen_size.1,
   v.2 * (101 / 100)
      + ((hash23 (v.1 * U.screen_size.1, v.2 * U.screen_size.2, (i : ℚ))).2 - 1 / 2)
        / U.screen_size.2)

/-- The constant corner table of the vertex shader. -/
def vertices : Fin 4 → ℚ × ℚ := ![(-1, -1), (-1, 1), (1, -1), (1, 1)]

/-- The vertex shader's `main`: returns (`gl_Position`, `vertex`) for a given
`gl_VertexID`; `vertex = (vertices[gl_VertexID] + offset) * scale`. -/
def vertexMain (offset scale : ℚ × ℚ) (gl_VertexID : Fin 4) :
    (ℚ × ℚ × ℚ × ℚ) × (ℚ × ℚ) :=
  let corner := vertices gl_VertexID
  ((corner.1, corner.2, 0, 1),
   ((corner.1 + offset.1) * scale.1, (corner.2 + offset.2) * scale.2))

/-! ## Concrete objects used by witnesses and counterexamples -/

/-- A state as produced by `CRTScreen((320, 240))`. -/
def s0 : CRTState where
  screen_size := (320, 240)
  screen_aspect := 320 / 240
  uniforms := initUniforms (320, 240)
  viewport := (0, 0, 0, 0)

/-- An all-red, fully opaque texture. -/
def texRed : ℚ × ℚ → Vec4 := fun _ => ⟨1, 0, 0, 1⟩

/-- An all-black, fully transparent texture (alpha 0 everywhere). -/
def texClear : ℚ × ℚ → Vec4 := fun _ => ⟨0, 0, 0, 0⟩

/-- A stand-in for GLSL `sin` at concrete inputs. -/
def sinZero : ℚ → ℚ := fun _ => 0

/-- Fragment uniforms with every effect off and `enable_screen = 0`
(passthrough mode). -/
def Upass : FragUniforms where
  color_shift := 0
  color_mode := 0
  enable_noise := 0
  enable_scanline := 0
  enable_multisample := 0
  enable_screen := 0
  time := 0
  screen_size := (320, 240)

/-- Fragment uniforms with the curved screen and multisampling on. -/
def Ucrt : FragUniforms :=
  { Upass with enable_screen := 1, enable_multisample := 1 }

/-- Fragment uniforms with the curved screen on and multisampling off. -/
def Ucrt0 : FragUniforms := { Ucrt with enable_multisample := 0 }

/-! ## Helper lemmas -/

/-- Characterization of a successful `render` call: when the window height,
the logical sizes and the relevant aspect divisors are nonzero, `render`
writes the viewport and the `time`, `scale` and `offset` uniforms and leaves
everything else untouched. -/
lemma render_ok (s : CRTState) (offArg : Option (ℚ × ℚ)) (tickArg : Option ℚ)
    (W H : ℤ) (t : ℚ)
    (hH : (H : ℚ) ≠ 0) (hw : (s.screen_size.1 : ℚ) ≠ 0) (hh : (s.screen_size.2 : ℚ) ≠ 0)
    (ha : s.screen_aspect ≠ 0) (hwa : (W : ℚ) / (H : ℚ) ≠ 0) :
    render s offArg tickArg (W, H) t = .ok { s with
      viewport := (0, 0, W, H)
      uniforms := { s.uniforms with
        time := .float (tickArg.getD t)
        scale :=
          (.float (if s.screen_aspect < (W : ℚ) / (H : ℚ) then
              ((W : ℚ) / (H : ℚ)) / s.screen_aspect else 1),
           .float (if s.screen_aspect < (W : ℚ) / (H : ℚ) then 1 else
              s.screen_aspect / ((W : ℚ) / (H : ℚ)))),
        offset :=
          (.float ((offArg.getD (0, 0)).1 / (s.screen_size.1 : ℚ)),
           .float ((offArg.getD (0, 0)).2 / (s.screen_size.2 : ℚ))) } } := by
  by_cases hlt : s.screen_aspect < (W : ℚ) / (H : ℚ)
  · simp [render, pyDiv, hH, hw, hh, ha, hlt, struct_pack_f]
  · simp [render, pyDiv, hH, hw, hh, hwa, hlt, struct_pack_f]

/-- `list.index` raises `ValueError` exactly on elements not in the list. -/
lemma py_list_index_not_mem (l : List String) (x : String) (h : x ∉ l) :
    py_list_index l x = .error "ValueError: not in list" := by
  induction l with
  | nil => rfl
  | cons a rest ih =>
      have hax : ¬(a = x) := fun hax => h (hax ▸ List.mem_cons_self a rest)
      have hxr : x ∉ rest := fun hm => h (List.mem_cons_of_mem a hm)
      simp [py_list_index, hax, ih hxr, Except.map]

/-- `andThen` on a successful step. -/
lemma andThen_ok (s : CRTState) (f : CRTState → CRTState × Option String) :
    andThen (s, none) f = f s := rfl

/-- `andThen` on a raised step. -/
lemma andThen_err (s : CRTState) (e : String) (f : CRTState → CRTState × Option String) :
    andThen (s, some e) f = (s, some e) := rfl

/-- Shape of the `color_shift` branch: the state is never changed (the
integer pack of the clamped float raises before the slot assignment), and no
error occurs only when the argument is absent. -/
lemma cfg_color_shift_shape (a : Option ℚ) (s : CRTState) :
    ∃ err, cfg_color_shift a s = (s, err) ∧ (a = none → err = none) := by
  cases a with
  | none => exact ⟨none, rfl, fun _ => rfl⟩
  | some x =>
      exact ⟨some "struct.error: required argument is not an integer", rfl,
        fun hx => nomatch hx⟩

/-- Shape of the `color_mode` branch: at most the `color_mode` slot changes,
and it is untouched when the argument is absent. -/
lemma cfg_color_mode_shape (a : Option String) (s : CRTState) :
    ∃ (err : Option String) (cm : PyVal),
      cfg_color_mode a s = ({ s with uniforms := { s.uniforms with color_mode := cm } }, err)
      ∧ (a = none → cm = s.uniforms.color_mode ∧ err = none) := by
  cases a with
  | none => exact ⟨none, s.uniforms.color_mode, rfl, fun _ => ⟨rfl, rfl⟩⟩
  | some m =>
      rcases h : py_list_index ["none", "bright", "aces"] m with e | v
      · exact ⟨some e, s.uniforms.color_mode, by simp [cfg_color_mode, h],
          fun hx => nomatch hx⟩
      · rcases h2 : struct_pack_i (.int v) with e2 | u
        · exact ⟨some e2, s.uniforms.color_mode, by simp [cfg_color_mode, h, h2],
            fun hx => nomatch hx⟩
        · exact ⟨none, u, by simp [cfg_color_mode, h, h2], fun hx => nomatch hx⟩

/-- Shape of the `enable_noise` branch: never raises; at most the
`enable_noise` slot changes. -/
lemma cfg_enable_noise_shape (a : Option Bool) (s : CRTState) :
    ∃ v, cfg_enable_noise a s = ({ s with uniforms := { s.uniforms with enable_noise := v } }, none)
      ∧ (a = none → v = s.uniforms.enable_noise) := by
  cases a with
  | none => exact ⟨s.uniforms.enable_noise, rfl, fun _ => rfl⟩
  | some b => cases b with
    | false => exact ⟨.int 0, rfl, fun hx => nomatch hx⟩
    | true => exact ⟨.int 1, rfl, fun hx => nomatch hx⟩

/-- Shape of the `enable_scanline` branch. -/
lemma cfg_enable_scanline_shape (a : Option Bool) (s : CRTState) :
    ∃ v, cfg_enable_scanline a s
        = ({ s with uniforms := { s.uniforms with enable_scanline := v } }, none)
      ∧ (a = none → v = s.uniforms.enable_scanline) := by
  cases a with
  | none => exact ⟨s.uniforms.enable_scanline, rfl, fun _ => rfl⟩
  | some b => cases b with
    | false => exact ⟨.int 0, rfl, fun hx => nomatch hx⟩
    | true => exact ⟨.int 1, rfl, fun hx => nomatch hx⟩

/-- Shape of the `enable_multisample` branch. -/
lemma cfg_enable_multisample_shape (a : Option Bool) (s : CRTState) :
    ∃ v, cfg_enable_multisample a s
        = ({ s with uniforms := { s.uniforms with enable_multisample := v } }, none)
      ∧ (a = none → v = s.uniforms.enable_multisample) := by
  cases a with
  | none => exact ⟨s.uniforms.enable_multisample, rfl, fun _ => rfl⟩
  | some b => cases b with
    | false => exact ⟨.int 0, rfl, fun hx => nomatch hx⟩
    | true => exact ⟨.int 1, rfl, fun hx => nomatch hx⟩

/-- Shape of the `enable_screen` branch. -/
lemma cfg_enable_screen_shape (a : Option Bool) (s : CRTState) :
    ∃ v, cfg_enable_screen a s
        = ({ s with uniforms := { s.uniforms with enable_screen := v } }, none)
      ∧ (a = none → v = s.uniforms.enable_screen) := by
  cases a with
  | none => exact ⟨s.uniforms.enable_screen, rfl, fun _ => rfl⟩
  | some b => cases b with
    | false => exact ⟨.int 0, rfl, fun hx => nomatch hx⟩
    | true => exact ⟨.int 1, rfl, fun hx => nomatch hx⟩

/-- Full shape of `configure`: only the `color_mode` and `enable_*` uniform
slots can change (the buggy `color_shift` pack never completes an
assignment), and a slot whose argument is absent keeps its value. -/
lemma configure_shape (s : CRTState) (a : ConfigureArgs) :
    ∃ (err : Option String) (cm en esl ems esc : PyVal),
      configure s a = ({ s with uniforms := { s.uniforms with
          color_mode := cm, enable_noise := en, enable_scanline := esl,
          enable_multisample := ems, enable_screen := esc } }, err)
      ∧ (a.color_mode = none → cm = s.uniforms.color_mode)
      ∧ (a.enable_noise = none → en = s.uniforms.enable_noise)
      ∧ (a.enable_scanline = none → esl = s.uniforms.enable_scanline)
      ∧ (a.enable_multisample = none → ems = s.uniforms.enable_multisample)
      ∧ (a.enable_screen = none → esc = s.uniforms.enable_screen) := by
  obtain ⟨e1, hcs, _⟩ := cfg_color_shift_shape a.color_shift s
  unfold configure
  rw [hcs]
  cases e1 with
  | some e =>
      rw [andThen_err, andThen_err, andThen_err, andThen_err, andThen_err]
      exact ⟨some e, s.uniforms.color_mode, s.uniforms.enable_noise,
        s.uniforms.enable_scanline, s.uniforms.enable_multisample,
        s.uniforms.enable_screen, rfl, fun _ => rfl, fun _ => rfl, fun _ => rfl,
        fun _ => rfl, fun _ => rfl⟩
  | none =>
      rw [andThen_ok]
      obtain ⟨e2, cm, hcm, hcm0⟩ := cfg_color_mode_shape a.color_mode s
      rw [hcm]
      cases e2 with
      | some e =>
          rw [andThen_err, andThen_err, andThen_err, andThen_err]
          refine ⟨some e, cm, s.uniforms.enable_noise, s.uniforms.enable_scanline,
            s.uniforms.enable_multisample, s.uniforms.enable_screen, rfl,
            fun hx => (hcm0 hx).1, fun _ => rfl, fun _ => rfl, fun _ => rfl, fun _ => rfl⟩
      | none =>
          rw [andThen_ok]
          obtain ⟨en, hen, hen0⟩ :=
            cfg_enable_noise_shape a.enable_noise
              { s with uniforms := { s.uniforms with color_mode := cm } }
          rw [hen, andThen_ok]
          obtain ⟨esl, hesl, hesl0⟩ :=
            cfg_enable_scanline_shape a.enable_scanline
              { s with uniforms := { s.uniforms with color_mode := cm, enable_noise := en } }
          rw [hesl, andThen_ok]
          obtain ⟨ems, hems, hems0⟩ :=
            cfg_enable_multisample_shape a.enable_multisample
              { s with uniforms := { s.uniforms with
                  color_mode := cm, enable_noise := en, enable_scanline := esl } }
          rw [hems, andThen_ok]
          obtain ⟨esc, hesc, hesc0⟩ :=
            cfg_enable_screen_shape a.enable_screen
              { s with uniforms := { s.uniforms with
                  color_mode := cm, enable_noise := en, enable_scanline := esl,
                  enable_multisample := ems } }
          rw [hesc]
          exact ⟨none, cm, en, esl, ems, esc, rfl,
            fun hx => (hcm0 hx).1, hen0, hesl0, hems0, hesc0⟩

/-- `Except.map` with two functions agreeing on every possible payload. -/
lemma map_congr_ok {α : Type} (X : Except String CRTState) (f g : CRTState → α)
    (h : ∀ v, X = .ok v → f v = g v) : X.map f = X.map g := by
  cases X with
  | error e => rfl
  | ok v => simpa [Except.map] using h v rfl

/-- `render` leaves the logical size, aspect and `screen_size` uniform alone
in every case (success or raise). -/
lemma render_preserves (s : CRTState) (offArg : Option (ℚ × ℚ)) (tickArg : Option ℚ)
    (win : ℤ × ℤ) (t : ℚ) :
    (render s offArg tickArg win t).map
        (fun s2 => (s2.screen_size, s2.screen_aspect, s2.uniforms.screen_size))
      = (render s offArg tickArg win t).map
        (fun _ => (s.screen_size, s.screen_aspect, s.uniforms.screen_size)) := by
  apply map_congr_ok
  intro v hv
  unfold render at hv
  dsimp only at hv
  repeat' split at hv
  all_goals (try cases hv)
  all_goals rfl

/-! ## Claims -/

/-- C9: when the display collaborator reports a window height of 0, `render`
stops at the aspect-ratio division with an error (Python's
`ZeroDivisionError`, the spec's `InvalidWindowState`) instead of producing
any scale. -/
theorem render_zero_window_height_errors (s : CRTState) (offArg : Option (ℚ × ℚ))
    (tickArg : Option ℚ) (W : ℤ) (t : ℚ) :
    render s offArg tickArg (W, 0) t = .error "ZeroDivisionError: division by zero" := by
  simp [render, pyDiv]

/-- C1: for positive logical and window sizes, `render` stores the aspect-fit
scale `(windowAspect/screenAspect, 1)` when `screenAspect < windowAspect` and
`(1, screenAspect/windowAspect)` otherwise; equal aspects yield `(1, 1)`. -/
theorem render_aspect_fit_scale (w h W H : ℤ) (s : CRTState)
    (offArg : Option (ℚ × ℚ)) (tickArg : Option ℚ) (t : ℚ)
    (hw : 0 < w) (hh : 0 < h) (hW : 0 < W) (hH : 0 < H)
    (hsz : s.screen_size = (w, h)) (hasp : s.screen_aspect = (w : ℚ) / (h : ℚ)) :
    ((render s offArg tickArg (W, H) t).map (fun s2 => s2.uniforms.scale)
      = .ok
        (.float (if (w : ℚ) / (h : ℚ) < (W : ℚ) / (H : ℚ) then
            ((W : ℚ) / (H : ℚ)) / ((w : ℚ) / (h : ℚ)) else 1),
         .float (if (w : ℚ) / (h : ℚ) < (W : ℚ) / (H : ℚ) then 1 else
            ((w : ℚ) / (h : ℚ)) / ((W : ℚ) / (H : ℚ)))))
    ∧ ((w : ℚ) / (h : ℚ) = (W : ℚ) / (H : ℚ) →
      (render s offArg tickArg (W, H) t).map (fun s2 => s2.uniforms.scale)
        = .ok (.float 1, .float 1)) := by
  have hH' : (H : ℚ) ≠ 0 := by exact_mod_cast hH.ne'
  have hw' : (s.screen_size.1 : ℚ) ≠ 0 := by
    rw [hsz]; exact_mod_cast hw.ne'
  have hh' : (s.screen_size.2 : ℚ) ≠ 0 := by
    rw [hsz]; exact_mod_cast hh.ne'
  have haq : ((w : ℚ) / (h : ℚ)) ≠ 0 := by
    refine div_ne_zero ?_ ?_ <;> [exact_mod_cast hw.ne'; exact_mod_cast hh.ne']
  have ha : s.screen_aspect ≠ 0 := by rw [hasp]; exact haq
  have hwa : (W : ℚ) / (H : ℚ) ≠ 0 := by
    refine div_ne_zero ?_ ?_ <;> [exact_mod_cast hW.ne'; exact_mod_cast hH.ne']
  constructor
  · rw [render_ok s offArg tickArg W H t hH' hw' hh' ha hwa]
    simp [Except.map, hasp]
  · intro heq
    rw [render_ok s offArg tickArg W H t hH' hw' hh' ha hwa]
    simp [Except.map, hasp, heq, div_self hwa]

/-- C1 witness: a pillarboxing run with logical size 320×240 in an 800×480
window yields scale (1.25, 1), and the equal-aspect case 640×480 yields
(1, 1). -/
theorem render_aspect_fit_scale_witness :
    (0 < (320 : ℤ) ∧ 0 < (240 : ℤ) ∧ 0 < (800 : ℤ) ∧ 0 < (480 : ℤ)
      ∧ s0.screen_size = (320, 240) ∧ s0.screen_aspect = (320 : ℚ) / (240 : ℚ))
    ∧ ((render s0 none none (800, 480) 0).map (fun s2 => s2.uniforms.scale)
      = .ok
        (.float (if (320 : ℚ) / (240 : ℚ) < (800 : ℚ) / (480 : ℚ) then
            ((800 : ℚ) / (480 : ℚ)) / ((320 : ℚ) / (240 : ℚ)) else 1),
         .float (if (320 : ℚ) / (240 : ℚ) < (800 : ℚ) / (480 : ℚ) then 1 else
            ((320 : ℚ) / (240 : ℚ)) / ((800 : ℚ) / (480 : ℚ)))))
    ∧ ((render s0 none none (640, 480) 0).map (fun s2 => s2.uniforms.scale)
      = .ok (.float 1, .float 1)) :=
  ⟨⟨by decide, by decide, by decide, by decide, rfl, rfl⟩,
   (render_aspect_fit_scale 320 240 800 480 s0 none none 0
      (by decide) (by decide) (by decide) (by decide) rfl rfl).1,
   (render_aspect_fit_scale 320 240 640 480 s0 none none 0
      (by decide) (by decide) (by decide) (by decide) rfl rfl).2 (by norm_num)⟩

/-- C6: the vertex stage computes `vertex = (corner + offset) * scale`
(offset added before scaling), this differs from `corner * scale + offset`,
and `render` derives the offset uniform as
`(panX / logicalWidth, panY / logicalHeight)`. -/
theorem vertex_offset_before_scale :
    (∀ (off sc : ℚ × ℚ) (i : Fin 4),
      (vertexMain off sc i).2
        = (((vertices i).1 + off.1) * sc.1, ((vertices i).2 + off.2) * sc.2))
    ∧ (∃ (off sc : ℚ × ℚ) (i : Fin 4),
      (vertexMain off sc i).2
        ≠ ((vertices i).1 * sc.1 + off.1, (vertices i).2 * sc.2 + off.2))
    ∧ (∀ (s : CRTState) (px py : ℚ) (W H : ℤ) (tickArg : Option ℚ) (t : ℚ),
      0 < s.screen_size.1 → 0 < s.screen_size.2 → 0 < W → 0 < H →
      0 < s.screen_aspect →
      (render s (some (px, py)) tickArg (W, H) t).map (fun s2 => s2.uniforms.offset)
        = .ok (.float (px / (s.screen_size.1 : ℚ)), .float (py / (s.screen_size.2 : ℚ)))) := by
  refine ⟨fun off sc i => rfl,
    ⟨(1, 0), (2, 2), 0, by norm_num [vertexMain, vertices]⟩, ?_⟩
  intro s px py W H tickArg t hw hh hW hH ha
  have hH' : (H : ℚ) ≠ 0 := by exact_mod_cast hH.ne'
  have hw' : (s.screen_size.1 : ℚ) ≠ 0 := by exact_mod_cast hw.ne'
  have hh' : (s.screen_size.2 : ℚ) ≠ 0 := by exact_mod_cast hh.ne'
  have hwa : (W : ℚ) / (H : ℚ) ≠ 0 := by
    refine div_ne_zero ?_ ?_ <;> [exact_mod_cast hW.ne'; exact_mod_cast hH.ne']
  rw [render_ok s (some (px, py)) tickArg W H t hH' hw' hh' ha.ne' hwa]
  simp [Except.map]

/-- C6 witness: a concrete render with pan (10, 20) on a 320×240 screen
stores the offset uniform (10/320, 20/240). -/
theorem vertex_offset_before_scale_witness :
    (0 < s0.screen_size.1 ∧ 0 < s0.screen_size.2 ∧ 0 < (640 : ℤ) ∧ 0 < (480 : ℤ)
      ∧ 0 < s0.screen_aspect)
    ∧ (render s0 (some (10, 20)) none (640, 480) 0).map (fun s2 => s2.uniforms.offset)
      = .ok (.float (10 / (s0.screen_size.1 : ℚ)), .float (20 / (s0.screen_size.2 : ℚ))) :=
  ⟨⟨by decide, by decide, by decide, by decide, by norm_num [s0]⟩,
   vertex_offset_before_scale.2.2 s0 10 20 640 480 none 0
     (by decide) (by decide) (by decide) (by decide) (by norm_num [s0])⟩

/-- C2: `configure(color_shift=x)` clamps `x` but then packs the clamped
Python float with the integer format `"i"`, so `struct.pack` raises
`struct.error` for every input and nothing is ever stored — the spec (and
the shader's `uniform float color_shift`) wants a 4-byte IEEE754 float
(`"f"`), so the code's `"i"` is a slip. -/
theorem configure_color_shift_always_raises (x : ℚ) (s : CRTState) :
    configure s { color_shift := some x }
      = (s, some "struct.error: required argument is not an integer") := rfl

/-- C3: a `configure` call whose `color_mode` is not one of
`"none"`, `"bright"`, `"aces"` raises an error and leaves the whole state
unchanged, whatever other fields the call supplies. -/
theorem configure_invalid_color_mode_atomic (s : CRTState) (a : ConfigureArgs)
    (m : String) (hm : a.color_mode = some m)
    (hmem : m ∉ (["none", "bright", "aces"] : List String)) :
    (configure s a).1 = s ∧ (configure s a).2.isSome = true := by
  obtain ⟨e1, hcs, _⟩ := cfg_color_shift_shape a.color_shift s
  unfold configure
  rw [hcs]
  cases e1 with
  | some e => simp [andThen]
  | none =>
      rw [andThen_ok, hm]
      have hcm : cfg_color_mode (some m) s = (s, some "ValueError: not in list") := by
        simp [cfg_color_mode, py_list_index_not_mem _ _ hmem]
      rw [hcm]
      simp [andThen]

/-- C3 witness: `configure(color_mode="sepia")` on a concrete state raises
and mutates nothing. -/
theorem configure_invalid_color_mode_atomic_witness :
    (({ color_mode := some "sepia" } : ConfigureArgs).color_mode = some "sepia"
      ∧ "sepia" ∉ (["none", "bright", "aces"] : List String))
    ∧ (configure s0 { color_mode := some "sepia" }).1 = s0
    ∧ (configure s0 { color_mode := some "sepia" }).2.isSome = true :=
  ⟨⟨rfl, by decide⟩,
   configure_invalid_color_mode_atomic s0 { color_mode := some "sepia" } "sepia"
     rfl (by decide)⟩

/-- C5: `configure()` with no arguments is a no-op (same state, no error),
and every configurable uniform slot whose argument is absent keeps its
previous value, whatever the other arguments are. -/
theorem configure_partial_update (s : CRTState) (a : ConfigureArgs) :
    configure s ({} : ConfigureArgs) = (s, none)
    ∧ (configure s { a with color_shift := none }).1.uniforms.color_shift
        = s.uniforms.color_shift
    ∧ (configure s { a with color_mode := none }).1.uniforms.color_mode
        = s.uniforms.color_mode
    ∧ (configure s { a with enable_noise := none }).1.uniforms.enable_noise
        = s.uniforms.enable_noise
    ∧ (configure s { a with enable_scanline := none }).1.uniforms.enable_scanline
        = s.uniforms.enable_scanline
    ∧ (configure s { a with enable_multisample := none }).1.uniforms.enable_multisample
        = s.uniforms.enable_multisample
    ∧ (configure s { a with enable_screen := none }).1.uniforms.enable_screen
        = s.uniforms.enable_screen := by
  refine ⟨rfl, ?_, ?_, ?_, ?_, ?_, ?_⟩
  · obtain ⟨err, cm, en, esl, ems, esc, heq, h1, h2, h3, h4, h5⟩ :=
      configure_shape s { a with color_shift := none }
    rw [heq]
  · obtain ⟨err, cm, en, esl, ems, esc, heq, h1, h2, h3, h4, h5⟩ :=
      configure_shape s { a with color_mode := none }
    rw [heq]
    exact h1 rfl
  · obtain ⟨err, cm, en, esl, ems, esc, heq, h1, h2, h3, h4, h5⟩ :=
      configure_shape s { a with enable_noise := none }
    rw [heq]
    exact h2 rfl
  · obtain ⟨err, cm, en, esl, ems, esc, heq, h1, h2, h3, h4, h5⟩ :=
      configure_shape s { a with enable_scanline := none }
    rw [heq]
    exact h3 rfl
  · obtain ⟨err, cm, en, esl, ems, esc, heq, h1, h2, h3, h4, h5⟩ :=
      configure_shape s { a with enable_multisample := none }
    rw [heq]
    exact h4 rfl
  · obtain ⟨err, cm, en, esl, ems, esc, heq, h1, h2, h3, h4, h5⟩ :=
      configure_shape s { a with enable_screen := none }
    rw [heq]
    exact h5 rfl

/-- C10: the logical screen size is fixed at construction with
`screen_aspect = width/height` and the `screen_size` uniform mirroring it,
and no `configure` or `render` call ever changes `screen_size`,
`screen_aspect` or the `screen_size` uniform. -/
theorem screen_size_immutable (w h : ℤ) (s : CRTState) (a : ConfigureArgs)
    (offArg : Option (ℚ × ℚ)) (tickArg : Option ℚ) (win : ℤ × ℤ) (t : ℚ) :
    ((CRTScreen_init (w, h)).map
        (fun si => (si.screen_size, si.screen_aspect, si.uniforms.screen_size))
      = (CRTScreen_init (w, h)).map
        (fun _ => ((w, h), (w : ℚ) / (h : ℚ), (.float (w : ℚ), .float (h : ℚ)))))
    ∧ ((configure s a).1.screen_size = s.screen_size
      ∧ (configure s a).1.screen_aspect = s.screen_aspect
      ∧ (configure s a).1.uniforms.screen_size = s.uniforms.screen_size)
    ∧ ((render s offArg tickArg win t).map
        (fun s2 => (s2.screen_size, s2.screen_aspect, s2.uniforms.screen_size))
      = (render s offArg tickArg win t).map
        (fun _ => (s.screen_size, s.screen_aspect, s.uniforms.screen_size))) := by
  refine ⟨?_, ?_, render_preserves s offArg tickArg win t⟩
  · by_cases hz : (h : ℚ) = 0
    · simp [CRTScreen_init, pyDiv, hz, Except.map]
    · simp [CRTScreen_init, pyDiv, hz, initUniforms, Except.map]
  · obtain ⟨err, cm, en, esl, ems, esc, heq, h1, h2, h3, h4, h5⟩ := configure_shape s a
    rw [heq]
    exact ⟨rfl, rfl, rfl⟩

/-- The multisample loop accumulates exactly the sum of the first `n`
jittered `screen` samples. -/
lemma msAccum_eq_sum (U : FragUniforms) (tex : ℚ × ℚ → Vec4) (sf : ℚ → ℚ)
    (v : ℚ × ℚ) (n : ℕ) :
    msAccum U tex sf v n =
      ⟨∑ i in Finset.range n, (screen U tex sf (samplePoint U v i)).r,
       ∑ i in Finset.range n, (screen U tex sf (samplePoint U v i)).g,
       ∑ i in Finset.range n, (screen U tex sf (samplePoint U v i)).b⟩ := by
  induction n with
  | zero => simp [msAccum]
  | succ k ih => simp [msAccum, ih, Finset.sum_range_succ, samplePoint]

/-- C4: with `enable_screen == 0` the fragment shader samples the texture
whenever `|vertex.x| <= 1 || |vertex.y| <= 1` — an `||` where the spec's
"inside the unit square" needs `&&`.  At vertex (2, 0), outside the unit
square, the shader fetches the texture at uv (1.5, 0.5) instead of writing
opaque black. -/
theorem frag_passthrough_samples_outside_square :
    (¬ (|(2 : ℚ)| ≤ 1 ∧ |(0 : ℚ)| ≤ 1))
    ∧ fragMain Upass texRed sinZero (2, 0) = texRed (3 / 2, 1 / 2)
    ∧ fragMain Upass texRed sinZero (2, 0) ≠ ⟨0, 0, 0, 1⟩ := by
  refine ⟨by decide, by decide, by decide⟩

/-- C8 counterexample: in the passthrough-sampled branch the shader writes
the fetched texel unchanged, so with a non-opaque texture the output alpha
is not 1. -/
theorem frag_alpha_counterexample :
    (fragMain Upass texClear sinZero (0, 0)).a ≠ 1 := by decide

/-- C8 (amended): the output alpha is 1 unconditionally in the
passthrough-black branch (which writes opaque black) and in both
curved-screen branches (which write `vec4(color, 1.0)`); the
passthrough-sampled branch outputs the fetched texel unchanged, so there
alpha equals the texture's alpha — in particular 1 whenever the texture is
opaque. -/
theorem frag_alpha_by_branch (U : FragUniforms) (tex : ℚ × ℚ → Vec4)
    (sf : ℚ → ℚ) (vtx : ℚ × ℚ) :
    (U.enable_screen = 0 → ¬(|vtx.1| ≤ 1 ∨ |vtx.2| ≤ 1) →
      fragMain U tex sf vtx = ⟨0, 0, 0, 1⟩)
    ∧ (U.enable_screen ≠ 0 → (fragMain U tex sf vtx).a = 1)
    ∧ (U.enable_screen = 0 → (|vtx.1| ≤ 1 ∨ |vtx.2| ≤ 1) →
      fragMain U tex sf vtx
        = tex (vtx.1 * (1 / 2) + 1 / 2, 1 - (vtx.2 * (1 / 2) + 1 / 2)))
    ∧ ((∀ uv, (tex uv).a = 1) → (fragMain U tex sf vtx).a = 1) := by
  refine ⟨?_, ?_, ?_, ?_⟩
  · intro hs hout
    simp [fragMain, hs, hout]
  · intro hs
    unfold fragMain
    rw [if_neg hs]
    split_ifs <;> rfl
  · intro hs hin
    simp [fragMain, hs, hin]
  · intro htex
    unfold fragMain
    split_ifs <;> simp [htex]

/-- C8 witness: all four parts at concrete fragments — black branch at
(2,2), curved-screen alpha at (0,0), sampled branch returning the texel
(even a transparent one) at (0,0), and the opaque-texture corollary. -/
theorem frag_alpha_by_branch_witness :
    (Upass.enable_screen = 0 ∧ ¬(|(2 : ℚ)| ≤ 1 ∨ |(2 : ℚ)| ≤ 1)
      ∧ fragMain Upass texClear sinZero (2, 2) = ⟨0, 0, 0, 1⟩)
    ∧ (Ucrt.enable_screen ≠ 0 ∧ (fragMain Ucrt texRed sinZero (0, 0)).a = 1)
    ∧ (Upass.enable_screen = 0 ∧ (|(0 : ℚ)| ≤ 1 ∨ |(0 : ℚ)| ≤ 1)
      ∧ fragMain Upass texClear sinZero (0, 0)
          = texClear ((0 : ℚ) * (1 / 2) + 1 / 2, 1 - ((0 : ℚ) * (1 / 2) + 1 / 2)))
    ∧ ((∀ uv : ℚ × ℚ, (texRed uv).a = 1) ∧ (fragMain Ucrt texRed sinZero (0, 0)).a = 1) :=
  ⟨⟨rfl, by decide,
      (frag_alpha_by_branch Upass texClear sinZero (2, 2)).1 rfl (by decide)⟩,
   ⟨by decide,
      (frag_alpha_by_branch Ucrt texRed sinZero (0, 0)).2.1 (by decide)⟩,
   ⟨rfl, by decide,
      (frag_alpha_by_branch Upass texClear sinZero (0, 0)).2.2.1 rfl (by decide)⟩,
   ⟨fun _ => rfl,
      (frag_alpha_by_branch Ucrt texRed sinZero (0, 0)).2.2.2 (fun _ => rfl)⟩⟩

/-- C7: with `enable_screen == 1` and `enable_multisample == 1` the fragment
color is the average of exactly 16 `screen` samples, the i-th taken at
`v*1.01 + (hash23(v*screenSize, i) - 0.5)/screenSize` where `v` is the
warped vertex; with `enable_multisample == 0` a single sample is taken at
`v*1.01`.  Alpha is 1 in both cases. -/
theorem frag_multisample_sixteen (U : FragUniforms) (tex : ℚ × ℚ → Vec4)
    (sf : ℚ → ℚ) (vtx : ℚ × ℚ) (hs : U.enable_screen = 1) :
    (U.enable_multisample = 1 →
      fragMain U tex sf vtx =
        ⟨(∑ i in Finset.range 16,
            (screen U tex sf (samplePoint U (warp vtx) i)).r) / 16,
         (∑ i in Finset.range 16,
            (screen U tex sf (samplePoint U (warp vtx) i)).g) / 16,
         (∑ i in Finset.range 16,
            (screen U tex sf (samplePoint U (warp vtx) i)).b) / 16, 1⟩)
    ∧ (U.enable_multisample = 0 →
      fragMain U tex sf vtx =
        ⟨(screen U tex sf ((warp vtx).1 * (101 / 100), (warp vtx).2 * (101 / 100))).r,
         (screen U tex sf ((warp vtx).1 * (101 / 100), (warp vtx).2 * (101 / 100))).g,
         (screen U tex sf ((warp vtx).1 * (101 / 100), (warp vtx).2 * (101 / 100))).b,
         1⟩) := by
  constructor
  · intro hm
    simp [fragMain, hs, hm, msAccum_eq_sum]
  · intro hm
    simp [fragMain, hs, hm]

/-- C7 witness: a concrete curved-screen multisampled fragment evaluates to
the 16-sample average. -/
theorem frag_multisample_sixteen_witness :
    (Ucrt.enable_screen = 1 ∧ Ucrt.enable_multisample = 1)
    ∧ fragMain Ucrt texRed sinZero (0, 0) =
        ⟨(∑ i in Finset.range 16,
            (screen Ucrt texRed sinZero (samplePoint Ucrt (warp (0, 0)) i)).r) / 16,
         (∑ i in Finset.range 16,
            (screen Ucrt texRed sinZero (samplePoint Ucrt (warp (0, 0)) i)).g) / 16,
         (∑ i in Finset.range 16,
            (screen Ucrt texRed sinZero (samplePoint Ucrt (warp (0, 0)) i)).b) / 16, 1⟩
    ∧ (Ucrt0.enable_screen = 1 ∧ Ucrt0.enable_multisample = 0)
    ∧ fragMain Ucrt0 texRed sinZero (0, 0) =
        ⟨(screen Ucrt0 texRed sinZero
            ((warp (0, 0)).1 * (101 / 100), (warp (0, 0)).2 * (101 / 100))).r,
         (screen Ucrt0 texRed sinZero
            ((warp (0, 0)).1 * (101 / 100), (warp (0, 0)).2 * (101 / 100))).g,
         (screen Ucrt0 texRed sinZero
            ((warp (0, 0)).1 * (101 / 100), (warp (0, 0)).2 * (101 / 100))).b, 1⟩ :=
  ⟨⟨rfl, rfl⟩, (frag_multisample_sixteen Ucrt texRed sinZero (0, 0) rfl).1 rfl,
   ⟨rfl, rfl⟩, (frag_multisample_sixteen Ucrt0 texRed sinZero (0, 0) rfl).2 rfl⟩

end PygameCRT
